import Mathlib

/-!
Shallow embedding of `sqlx-prepare.py`, a build-cache regeneration script.

The script performs, in order:
1. `subprocess.run(["cargo", "clean"])`
2. `os.makedirs("target", exist_ok=True)`
3. `shutil.rmtree("target/sqlx", ignore_errors=True)`;
   `shutil.rmtree(".sqlx", ignore_errors=True)`
4. `os.mkdir("target/sqlx")`
5. `os.environ["SQLX_OFFLINE"] = "false"`;
   `os.environ["SQLX_OFFLINE_DIR"] = "target/sqlx"`
6. `subprocess.run(["cargo", "check", "--workspace"])`
7. `shutil.copytree("target/sqlx", ".sqlx")`

The filesystem is modelled as a pair of predicates on component paths
(directories present, file contents).  The two external subprocesses are
opaque oracles transforming the filesystem and returning an exit code.
OS-level failures (permission/I-O errors) of the filesystem primitives are
modelled by an optional injected error per call site, mirroring whether the
Python library call would raise; `shutil.rmtree(..., ignore_errors=True)`
swallows such an error, all other primitives propagate it.
-/

namespace SqlxPrepare

/-- A filesystem path, split into components (`"target/sqlx"` ↦ `["target", "sqlx"]`). -/
abbrev Path := List String

/-- `underDir d q` holds when path `q` equals `d` or lies inside directory `d`
(component-wise: `d` is an initial segment of `q`). -/
def underDir : Path → Path → Bool
  | [], _ => true
  | _ :: _, [] => false
  | a :: d, b :: q => a == b && underDir d q

/-- Filesystem state: which paths are directories, and the contents of files. -/
structure FS where
  isDir : Path → Bool
  file : Path → Option String

/-- The empty filesystem (just the working directory). -/
def emptyFS : FS := ⟨fun _ => false, fun _ => none⟩

/-- OS-level error raised by a filesystem call
(`PermissionError`, `FileExistsError`, `FileNotFoundError`, `NotADirectoryError`, `OSError`). -/
inductive OSErr where
  | permissionDenied
  | fileExists
  | fileNotFound
  | notADirectory
  | ioError
deriving DecidableEq, Repr

/-- Helper for `toPath`: split a character list on `/`, accumulating the
current component in reverse. -/
def splitSlashAux : List Char → List Char → Path
  | [], acc => [String.mk acc.reverse]
  | c :: cs, acc =>
    if c = '/' then String.mk acc.reverse :: splitSlashAux cs []
    else splitSlashAux cs (c :: acc)

/-- Split a path string on `/` into components, as the Python library does. -/
def toPath (s : String) : Path := splitSlashAux s.data []

/-- The non-empty initial segments of a path: the chain of directories
`os.makedirs` creates. -/
def dirChain (p : Path) : List Path := (List.range p.length).map (fun n => p.take (n + 1))

/-- `os.makedirs(s, exist_ok=True)`: create the directory and its ancestors;
no error when they already exist as directories, `FileExistsError` when a
component exists as a regular file.  `fault` injects an OS-level error
(permission/disk), which this call propagates. -/
def makedirsEO (fault : Option OSErr) (fs : FS) (s : String) : Except OSErr FS :=
  match fault with
  | some e => Except.error e
  | none =>
    if (dirChain (toPath s)).any (fun q => (fs.file q).isSome) then
      Except.error OSErr.fileExists
    else
      Except.ok ⟨fun q => (dirChain (toPath s)).contains q || fs.isDir q, fs.file⟩

/-- `os.mkdir(s)`: create a single directory; `FileExistsError` when the path
already exists (as directory or file), `FileNotFoundError` when the parent
directory is missing.  `fault` injects an OS-level error, propagated. -/
def mkdirE (fault : Option OSErr) (fs : FS) (s : String) : Except OSErr FS :=
  match fault with
  | some e => Except.error e
  | none =>
    if fs.isDir (toPath s) || (fs.file (toPath s)).isSome then
      Except.error OSErr.fileExists
    else if !(toPath s).dropLast.isEmpty && !fs.isDir (toPath s).dropLast then
      Except.error OSErr.fileNotFound
    else
      Except.ok ⟨fun q => q == toPath s || fs.isDir q, fs.file⟩

/-- `shutil.rmtree(s, ignore_errors=True)`: remove the directory tree rooted at
`s` when it is a directory; when the path is missing or not a directory the
underlying error is swallowed and the filesystem is unchanged.  An injected
OS-level error (`fault`) is likewise swallowed: the call never raises. -/
def rmtreeIgnore (fault : Option OSErr) (fs : FS) (s : String) : FS :=
  match fault with
  | some _ => fs
  | none =>
    if fs.isDir (toPath s) then
      ⟨fun q => !underDir (toPath s) q && fs.isDir q,
       fun q => if underDir (toPath s) q then none else fs.file q⟩
    else fs

/-- The filesystem after a successful `shutil.copytree(sP, dP)`: the subtree
under `dP` mirrors the subtree under `sP` (directories and file contents),
`dP` itself and its ancestors are created, everything else is untouched. -/
def copyTree (fs : FS) (sP dP : Path) : FS :=
  ⟨fun q =>
     if underDir dP q then q == dP || fs.isDir (sP ++ q.drop dP.length)
     else fs.isDir q || (underDir q dP && !(q == dP) && !q.isEmpty),
   fun q =>
     if underDir dP q then fs.file (sP ++ q.drop dP.length) else fs.file q⟩

/-- `shutil.copytree(src, dst)`: `FileNotFoundError` when `src` is missing,
`NotADirectoryError` when `src` is a regular file, `FileExistsError` when
`dst` already exists (the internal `os.makedirs(dst)` has `exist_ok=False`);
otherwise copy the tree recursively.  `fault` injects an OS-level error,
propagated. -/
def copytreeE (fault : Option OSErr) (fs : FS) (src dst : String) :
    Except OSErr FS :=
  match fault with
  | some e => Except.error e
  | none =>
    if fs.isDir (toPath src) = false then
      Except.error
        (if (fs.file (toPath src)).isSome then OSErr.notADirectory
         else OSErr.fileNotFound)
    else if fs.isDir (toPath dst) || (fs.file (toPath dst)).isSome then
      Except.error OSErr.fileExists
    else
      Except.ok (copyTree fs (toPath src) (toPath dst))

/-- Process environment, as `os.environ`: a map from variable names to values. -/
abbrev EnvMap := String → Option String

/-- `os.environ[k] = v`. -/
def setEnv (k v : String) (m : EnvMap) : EnvMap :=
  fun x => if x = k then some v else m x

/-- The external build tool (`cargo`), an opaque black box: each subcommand
receives the process environment and the filesystem and yields the new
filesystem together with its exit code. -/
structure BuildTool where
  clean : EnvMap → FS → FS × Int
  check : EnvMap → FS → FS × Int

/-- Injected OS-level errors, one optional error per filesystem call site of
the script (`none` = the call does not hit a permission/disk error). -/
structure Faults where
  atMakedirs : Option OSErr
  atRmtreeBuild : Option OSErr
  atRmtreePrepare : Option OSErr
  atMkdir : Option OSErr
  atCopytree : Option OSErr

/-- A fault-free execution environment. -/
def noFaults : Faults := ⟨none, none, none, none, none⟩

def TARGET_DIR : String := "target"
def SQLX_BUILD_DIR : String := "target/sqlx"
def SQLX_PREPARE_DIR : String := ".sqlx"

/-- The environment in effect from step 5 on: the inherited environment with
`SQLX_OFFLINE` set to `"false"` (line 23) and then `SQLX_OFFLINE_DIR` set to
`"target/sqlx"` (line 24). -/
def checkEnv (env0 : EnvMap) : EnvMap :=
  setEnv "SQLX_OFFLINE_DIR" SQLX_BUILD_DIR (setEnv "SQLX_OFFLINE" "false" env0)

/-- Observable outcome of one run of the script: final result (the process
exit is `0` exactly when `result` is `ok`), the script's own environment at
termination, the environment/exit code each subprocess was invoked with (plus,
for `check`, the filesystem immediately after it returned), the steps that
completed, and the step at which an error propagated, if any. -/
structure Outcome where
  result : Except OSErr FS
  env : EnvMap
  cleanCall : Option (EnvMap × Int)
  checkCall : Option (EnvMap × Int × FS)
  ranSteps : List Nat
  failedStep : Option Nat

/-- One run of `sqlx-prepare.py`, line by line (see the module comment for the
step numbering).  Subprocess exit codes are recorded but never inspected; a
propagating filesystem error aborts the remaining steps. -/
def run (tool : BuildTool) (faults : Faults) (env0 : EnvMap) (fs0 : FS) :
    Outcome :=
  match makedirsEO faults.atMakedirs (tool.clean env0 fs0).1 TARGET_DIR with
  | Except.error e =>
    ⟨Except.error e, env0, some (env0, (tool.clean env0 fs0).2), none, [1], some 2⟩
  | Except.ok fs2 =>
    match mkdirE faults.atMkdir
        (rmtreeIgnore faults.atRmtreePrepare
          (rmtreeIgnore faults.atRmtreeBuild fs2 SQLX_BUILD_DIR)
          SQLX_PREPARE_DIR)
        SQLX_BUILD_DIR with
    | Except.error e =>
      ⟨Except.error e, env0, some (env0, (tool.clean env0 fs0).2), none,
       [1, 2, 3], some 4⟩
    | Except.ok fs4 =>
      match copytreeE faults.atCopytree (tool.check (checkEnv env0) fs4).1
          SQLX_BUILD_DIR SQLX_PREPARE_DIR with
      | Except.error e =>
        ⟨Except.error e, checkEnv env0, some (env0, (tool.clean env0 fs0).2),
         some (checkEnv env0, (tool.check (checkEnv env0) fs4).2,
               (tool.check (checkEnv env0) fs4).1),
         [1, 2, 3, 4, 5, 6], some 7⟩
      | Except.ok fs7 =>
        ⟨Except.ok fs7, checkEnv env0, some (env0, (tool.clean env0 fs0).2),
         some (checkEnv env0, (tool.check (checkEnv env0) fs4).2,
               (tool.check (checkEnv env0) fs4).1),
         [1, 2, 3, 4, 5, 6, 7], none⟩

/-- The empty process environment. -/
def emptyEnv : EnvMap := fun _ => none

/-! ### Basic lemmas about the model -/

theorem toPath_target : toPath TARGET_DIR = ["target"] := rfl

theorem toPath_build : toPath SQLX_BUILD_DIR = ["target", "sqlx"] := rfl

theorem toPath_prep : toPath SQLX_PREPARE_DIR = [".sqlx"] := rfl

theorem underDir_append (d t : Path) : underDir d (d ++ t) = true := by
  induction d with
  | nil => rfl
  | cons a d ih => simp [underDir, ih]

theorem append_beq_self (d t : Path) : (d ++ t == d) = t.isEmpty := by
  cases t with
  | nil => simp
  | cons a t =>
    have hne : d ++ a :: t ≠ d := by
      intro h
      have := congrArg List.length h
      simp at this
    simp [hne]

theorem underDir_single (x : String) (a : String) (t : Path) :
    underDir [x] (a :: t) = (x == a) := by
  simp [underDir]

theorem setEnv_same (k v : String) (m : EnvMap) : setEnv k v m k = some v := by
  simp [setEnv]

theorem setEnv_ne (k k' v : String) (m : EnvMap) (h : k ≠ k') :
    setEnv k' v m k = m k := by
  simp [setEnv, h]

theorem checkEnv_offline (env0 : EnvMap) :
    checkEnv env0 "SQLX_OFFLINE" = some "false" := rfl

theorem checkEnv_dir (env0 : EnvMap) :
    checkEnv env0 "SQLX_OFFLINE_DIR" = some SQLX_BUILD_DIR := rfl

theorem checkEnv_other (env0 : EnvMap) (k : String)
    (h1 : k ≠ "SQLX_OFFLINE") (h2 : k ≠ "SQLX_OFFLINE_DIR") :
    checkEnv env0 k = env0 k := by
  simp [checkEnv, setEnv, h1, h2]

theorem copyTree_file_under (fs : FS) (sP dP rest : Path) :
    (copyTree fs sP dP).file (dP ++ rest) = fs.file (sP ++ rest) := by
  simp [copyTree, underDir_append, List.drop_left]

theorem copyTree_isDir_under (fs : FS) (sP dP rest : Path) :
    (copyTree fs sP dP).isDir (dP ++ rest) =
      (rest.isEmpty || fs.isDir (sP ++ rest)) := by
  simp [copyTree, underDir_append, List.drop_left, append_beq_self]

theorem copyTree_file_outside (fs : FS) (sP dP q : Path)
    (h : underDir dP q = false) :
    (copyTree fs sP dP).file q = fs.file q := by
  simp [copyTree, h]

theorem copyTree_isDir_outside (fs : FS) (sP dP q : Path)
    (h : underDir dP q = false) :
    (copyTree fs sP dP).isDir q =
      (fs.isDir q || (underDir q dP && !(q == dP) && !q.isEmpty)) := by
  simp [copyTree, h]

/-! ### Elimination lemmas for the filesystem primitives -/

theorem makedirsEO_ok_file (fault : Option OSErr) (fs : FS) (s : String)
    (fs' : FS) (h : makedirsEO fault fs s = Except.ok fs') :
    fs'.file = fs.file := by
  cases fault with
  | some e => simp [makedirsEO] at h
  | none =>
    simp only [makedirsEO] at h
    split at h
    · simp at h
    · cases h
      rfl

theorem mkdirE_ok_file (fault : Option OSErr) (fs : FS) (s : String)
    (fs' : FS) (h : mkdirE fault fs s = Except.ok fs') :
    fs'.file = fs.file := by
  cases fault with
  | some e => simp [mkdirE] at h
  | none =>
    simp only [mkdirE] at h
    split at h
    · simp at h
    · split at h
      · simp at h
      · cases h
        rfl

theorem mkdirE_ok_isDir (fault : Option OSErr) (fs : FS) (s : String)
    (fs' : FS) (h : mkdirE fault fs s = Except.ok fs') :
    fs'.isDir = fun q => q == toPath s || fs.isDir q := by
  cases fault with
  | some e => simp [mkdirE] at h
  | none =>
    simp only [mkdirE] at h
    split at h
    · simp at h
    · split at h
      · simp at h
      · cases h
        rfl

theorem rmtreeIgnore_file_outside (fault : Option OSErr) (fs : FS) (s : String)
    (p : Path) (h : underDir (toPath s) p = false) :
    (rmtreeIgnore fault fs s).file p = fs.file p := by
  cases fault with
  | some e => rfl
  | none =>
    simp only [rmtreeIgnore]
    split
    · simp [h]
    · rfl

theorem copytreeE_ok_elim (fault : Option OSErr) (fs : FS) (src dst : String)
    (fs' : FS) (h : copytreeE fault fs src dst = Except.ok fs') :
    fault = none ∧ fs.isDir (toPath src) = true ∧
    fs.isDir (toPath dst) = false ∧ fs.file (toPath dst) = none ∧
    fs' = copyTree fs (toPath src) (toPath dst) := by
  cases fault with
  | some e => simp [copytreeE] at h
  | none =>
    simp only [copytreeE] at h
    split at h
    · simp at h
    · split at h
      · simp at h
      · rename_i h1 h2
        cases h
        have h2' : fs.isDir (toPath dst) = false ∧ fs.file (toPath dst) = none := by
          simpa using h2
        exact ⟨rfl, by simpa using h1, h2'.1, h2'.2, rfl⟩

/-- Successful-run characterization: a run that ends in `ok` went through all
seven steps; it exposes the intermediate filesystems and what `checkCall`
recorded. -/
theorem run_ok_elim (tool : BuildTool) (faults : Faults) (env0 : EnvMap)
    (fs0 : FS) (fsF : FS)
    (h : (run tool faults env0 fs0).result = Except.ok fsF) :
    ∃ fs2 fs4,
      makedirsEO faults.atMakedirs (tool.clean env0 fs0).1 TARGET_DIR =
        Except.ok fs2 ∧
      mkdirE faults.atMkdir
          (rmtreeIgnore faults.atRmtreePrepare
            (rmtreeIgnore faults.atRmtreeBuild fs2 SQLX_BUILD_DIR)
            SQLX_PREPARE_DIR)
          SQLX_BUILD_DIR = Except.ok fs4 ∧
      copytreeE faults.atCopytree (tool.check (checkEnv env0) fs4).1
          SQLX_BUILD_DIR SQLX_PREPARE_DIR = Except.ok fsF ∧
      (run tool faults env0 fs0).checkCall =
        some (checkEnv env0, (tool.check (checkEnv env0) fs4).2,
              (tool.check (checkEnv env0) fs4).1) := by
  unfold run at h ⊢
  split at h
  · simp at h
  · rename_i fs2 hm
    split at h
    · simp at h
    · rename_i fs4 hk
      split at h
      · simp at h
      · rename_i fs7 hc
        have hinj : fs7 = fsF := by simpa using h
        subst hinj
        exact ⟨fs2, fs4, hm, hk, hc, rfl⟩

/-! ### Concrete build tools and runs used to instantiate the theorems -/

/-- A build tool whose subcommands leave the filesystem unchanged. -/
def idTool : BuildTool := ⟨fun _ f => (f, 0), fun _ f => (f, 0)⟩

/-- A build tool whose `check` deterministically writes one metadata file
`target/sqlx/q1.json` into the cache directory (replacing whatever the cache
subtree held), regardless of the rest of the filesystem. -/
def demoTool : BuildTool :=
  ⟨fun _ f => (f, 0),
   fun _ f =>
     (⟨fun q => if underDir (toPath SQLX_BUILD_DIR) q then
                  q == toPath SQLX_BUILD_DIR
                else f.isDir q,
       fun q => if underDir (toPath SQLX_BUILD_DIR) q then
                  (if q == toPath SQLX_BUILD_DIR ++ ["q1.json"] then some "meta"
                   else none)
                else f.file q⟩, 0)⟩

/-- A build tool whose `clean` removes the whole `target` subtree, as
`cargo clean` does, and whose `check` is the identity. -/
def wipeCleanTool : BuildTool :=
  ⟨fun _ f =>
     (⟨fun q => !underDir (toPath TARGET_DIR) q && f.isDir q,
       fun q => if underDir (toPath TARGET_DIR) q then none else f.file q⟩, 0),
   fun _ f => (f, 0)⟩

/-- A fault-free demonstration run of the script from an empty workspace. -/
def demoRun : Outcome := run demoTool noFaults emptyEnv emptyFS

/-- The final filesystem of `demoRun`. -/
def demoFsF : FS :=
  match demoRun.result with
  | Except.ok f => f
  | Except.error _ => emptyFS

/-- What `demoRun` recorded for the `check` invocation. -/
def demoCheck : EnvMap × Int × FS :=
  match demoRun.checkCall with
  | some t => t
  | none => (emptyEnv, 0, emptyFS)

/-! ### The claims -/

/-- C1: for every run that completes successfully, the prepared-metadata
directory `.sqlx` exists, the cache directory `target/sqlx` still exists, and
`.sqlx` is an exact recursive copy of `target/sqlx` as it existed immediately
after the type-check step: a file lies at relative path `rest` under `.sqlx`
with given contents exactly when the post-check filesystem has one at `rest`
under `target/sqlx`. -/
theorem C1_prepared_dir_exact_copy
    (tool : BuildTool) (faults : Faults) (env0 : EnvMap) (fs0 : FS)
    (fsF : FS) (e : EnvMap) (c : Int) (fs6 : FS)
    (hok : (run tool faults env0 fs0).result = Except.ok fsF)
    (hchk : (run tool faults env0 fs0).checkCall = some (e, c, fs6)) :
    fsF.isDir (toPath SQLX_PREPARE_DIR) = true ∧
    fsF.isDir (toPath SQLX_BUILD_DIR) = true ∧
    ∀ rest : Path,
      fsF.file (toPath SQLX_PREPARE_DIR ++ rest) =
        fs6.file (toPath SQLX_BUILD_DIR ++ rest) := by
  obtain ⟨fs2, fs4, hm, hk, hc, hcall⟩ := run_ok_elim tool faults env0 fs0 fsF hok
  rw [hcall] at hchk
  have hfs6 : fs6 = (tool.check (checkEnv env0) fs4).1 := by
    have := Option.some.inj hchk
    have h2 := congrArg (fun t => t.2.2) this
    simpa using h2.symm
  subst hfs6
  obtain ⟨-, hsrc, hdst, -, hcopy⟩ :=
    copytreeE_ok_elim faults.atCopytree _ SQLX_BUILD_DIR SQLX_PREPARE_DIR fsF hc
  subst hcopy
  refine ⟨?_, ?_, ?_⟩
  · have := copyTree_isDir_under
      ((tool.check (checkEnv env0) fs4).1) (toPath SQLX_BUILD_DIR)
      (toPath SQLX_PREPARE_DIR) []
    simpa using this
  · rw [copyTree_isDir_outside _ _ _ _ (by decide), hsrc]
    rfl
  · intro rest
    exact copyTree_file_under _ _ _ rest

/-- Witness for C1: the fault-free demonstration run from an empty workspace
completes successfully, `.sqlx` and `target/sqlx` both exist afterwards, and
the metadata file the tool wrote is found under `.sqlx` with the contents the
post-check cache directory holds. -/
theorem C1_prepared_dir_exact_copy_witness :
    demoRun.result = Except.ok demoFsF ∧
    demoRun.checkCall = some (demoCheck.1, demoCheck.2.1, demoCheck.2.2) ∧
    demoFsF.isDir (toPath SQLX_PREPARE_DIR) = true ∧
    demoFsF.isDir (toPath SQLX_BUILD_DIR) = true ∧
    demoFsF.file (toPath SQLX_PREPARE_DIR ++ ["q1.json"]) =
      demoCheck.2.2.file (toPath SQLX_BUILD_DIR ++ ["q1.json"]) := by
  have h := C1_prepared_dir_exact_copy demoTool noFaults emptyEnv emptyFS
    demoFsF demoCheck.1 demoCheck.2.1 demoCheck.2.2 rfl rfl
  exact ⟨rfl, rfl, h.1, h.2.1, h.2.2 ["q1.json"]⟩

/-- `tool` with the exit codes of both subcommands overridden; the filesystem
effects are unchanged. -/
def withCodes (tool : BuildTool) (c1 c2 : Int) : BuildTool :=
  ⟨fun e f => ((tool.clean e f).1, c1), fun e f => ((tool.check e f).1, c2)⟩

theorem run_withCodes (tool : BuildTool) (c1 c2 : Int) (faults : Faults)
    (env0 : EnvMap) (fs0 : FS) :
    (run (withCodes tool c1 c2) faults env0 fs0).result =
      (run tool faults env0 fs0).result ∧
    (run (withCodes tool c1 c2) faults env0 fs0).ranSteps =
      (run tool faults env0 fs0).ranSteps ∧
    (run (withCodes tool c1 c2) faults env0 fs0).failedStep =
      (run tool faults env0 fs0).failedStep := by
  simp only [run, withCodes]
  cases hm : makedirsEO faults.atMakedirs (tool.clean env0 fs0).1 TARGET_DIR with
  | error e => exact ⟨rfl, rfl, rfl⟩
  | ok fs2 =>
    dsimp only
    cases hk : mkdirE faults.atMkdir
        (rmtreeIgnore faults.atRmtreePrepare
          (rmtreeIgnore faults.atRmtreeBuild fs2 SQLX_BUILD_DIR)
          SQLX_PREPARE_DIR)
        SQLX_BUILD_DIR with
    | error e => exact ⟨rfl, rfl, rfl⟩
    | ok fs4 =>
      dsimp only
      cases hc : copytreeE faults.atCopytree (tool.check (checkEnv env0) fs4).1
          SQLX_BUILD_DIR SQLX_PREPARE_DIR with
      | error e => exact ⟨rfl, rfl, rfl⟩
      | ok fs7 => exact ⟨rfl, rfl, rfl⟩

theorem run_error_step (tool : BuildTool) (faults : Faults) (env0 : EnvMap)
    (fs0 : FS) (e : OSErr)
    (h : (run tool faults env0 fs0).result = Except.error e) :
    (run tool faults env0 fs0).failedStep = some 2 ∨
    (run tool faults env0 fs0).failedStep = some 4 ∨
    (run tool faults env0 fs0).failedStep = some 7 := by
  unfold run at h ⊢
  split at h
  · exact Or.inl rfl
  · split at h
    · exact Or.inr (Or.inl rfl)
    · split at h
      · exact Or.inr (Or.inr rfl)
      · simp at h

/-- C2: the exit codes of the two subprocesses (clean in step 1, check in
step 6) are never inspected: overriding them with any values changes neither
the script's result nor which steps execute (in particular the final copy of
step 7 still runs); and the script's own result is success unless a
filesystem error propagated, which only happens at step 2, 4 or 7. -/
theorem C2_subprocess_exit_codes_ignored
    (tool : BuildTool) (c1 c2 : Int) (faults : Faults) (env0 : EnvMap)
    (fs0 : FS) :
    (run (withCodes tool c1 c2) faults env0 fs0).result =
      (run tool faults env0 fs0).result ∧
    (run (withCodes tool c1 c2) faults env0 fs0).ranSteps =
      (run tool faults env0 fs0).ranSteps ∧
    ∀ e : OSErr, (run tool faults env0 fs0).result = Except.error e →
      (run tool faults env0 fs0).failedStep = some 2 ∨
      (run tool faults env0 fs0).failedStep = some 4 ∨
      (run tool faults env0 fs0).failedStep = some 7 :=
  ⟨(run_withCodes tool c1 c2 faults env0 fs0).1,
   (run_withCodes tool c1 c2 faults env0 fs0).2.1,
   fun e he => run_error_step tool faults env0 fs0 e he⟩

/-- A fault setup whose only injected error is a permission error at the
`os.mkdir` call of step 4. -/
def mkdirFault : Faults := ⟨none, none, none, some OSErr.permissionDenied, none⟩

/-- Witness for C2: with exit codes forced to 17 and 101 the demonstration
run has the same (successful) result and the same executed steps as with the
original codes; and a run that does fail (a permission error injected at
step 4) fails at one of steps 2, 4, 7. -/
theorem C2_subprocess_exit_codes_ignored_witness :
    (run (withCodes demoTool 17 101) noFaults emptyEnv emptyFS).result =
      demoRun.result ∧
    (run (withCodes demoTool 17 101) noFaults emptyEnv emptyFS).ranSteps =
      demoRun.ranSteps ∧
    ((run idTool mkdirFault emptyEnv emptyFS).failedStep = some 2 ∨
     (run idTool mkdirFault emptyEnv emptyFS).failedStep = some 4 ∨
     (run idTool mkdirFault emptyEnv emptyFS).failedStep = some 7) :=
  ⟨(C2_subprocess_exit_codes_ignored demoTool 17 101 noFaults emptyEnv
      emptyFS).1,
   (C2_subprocess_exit_codes_ignored demoTool 17 101 noFaults emptyEnv
      emptyFS).2.1,
   (C2_subprocess_exit_codes_ignored idTool 0 0 mkdirFault emptyEnv
      emptyFS).2.2 OSErr.permissionDenied rfl⟩

/-- Which environment each subprocess call received, and what the script's
own environment is at termination, in every branch of the run. -/
theorem run_calls (tool : BuildTool) (faults : Faults) (env0 : EnvMap)
    (fs0 : FS) :
    (run tool faults env0 fs0).cleanCall =
      some (env0, (tool.clean env0 fs0).2) ∧
    (∀ (e : EnvMap) (c : Int) (f6 : FS),
      (run tool faults env0 fs0).checkCall = some (e, c, f6) →
      e = checkEnv env0) ∧
    ((run tool faults env0 fs0).checkCall = none →
      (run tool faults env0 fs0).env = env0) ∧
    ((run tool faults env0 fs0).checkCall ≠ none →
      (run tool faults env0 fs0).env = checkEnv env0) := by
  unfold run
  split
  · refine ⟨rfl, ?_, fun _ => rfl, ?_⟩
    · intro e c f6 h
      simp at h
    · intro h
      exact absurd rfl h
  · split
    · refine ⟨rfl, ?_, fun _ => rfl, ?_⟩
      · intro e c f6 h
        simp at h
      · intro h
        exact absurd rfl h
    · split
      · refine ⟨rfl, ?_, ?_, fun _ => rfl⟩
        · intro e c f6 h
          have h' := Option.some.inj h
          exact (congrArg Prod.fst h').symm
        · intro h
          simp at h
      · refine ⟨rfl, ?_, ?_, fun _ => rfl⟩
        · intro e c f6 h
          have h' := Option.some.inj h
          exact (congrArg Prod.fst h').symm
        · intro h
          simp at h

/-- C3: whenever the check subprocess of step 6 is invoked, its environment
has `SQLX_OFFLINE` bound to the literal string `"false"` and
`SQLX_OFFLINE_DIR` bound to the nested cache directory path
`"target/sqlx"`. -/
theorem C3_check_env_values (tool : BuildTool) (faults : Faults)
    (env0 : EnvMap) (fs0 : FS) (e : EnvMap) (c : Int) (f6 : FS)
    (h : (run tool faults env0 fs0).checkCall = some (e, c, f6)) :
    e "SQLX_OFFLINE" = some "false" ∧
    e "SQLX_OFFLINE_DIR" = some SQLX_BUILD_DIR := by
  have he := (run_calls tool faults env0 fs0).2.1 e c f6 h
  subst he
  exact ⟨checkEnv_offline env0, checkEnv_dir env0⟩

/-- Witness for C3: in the demonstration run the check subprocess received
`SQLX_OFFLINE="false"` and `SQLX_OFFLINE_DIR="target/sqlx"`. -/
theorem C3_check_env_values_witness :
    demoCheck.1 "SQLX_OFFLINE" = some "false" ∧
    demoCheck.1 "SQLX_OFFLINE_DIR" = some SQLX_BUILD_DIR :=
  C3_check_env_values demoTool noFaults emptyEnv emptyFS
    demoCheck.1 demoCheck.2.1 demoCheck.2.2 rfl

/-- C4, counterexample: the code does not restore `os.environ` after the
check invocation.  In a successfully completing run started from an empty
environment, the script's own process environment at termination — the
environment step 7 runs under — still holds both assignments, so the claim
that "the script's own process environment is not left mutated by them" and
that step 7 "observes the environment unchanged" is false. -/
theorem C4_env_not_restored_cex :
    demoRun.result = Except.ok demoFsF ∧
    emptyEnv "SQLX_OFFLINE" = none ∧
    demoRun.env "SQLX_OFFLINE" = some "false" ∧
    demoRun.env "SQLX_OFFLINE_DIR" = some SQLX_BUILD_DIR :=
  ⟨rfl, rfl, rfl, rfl⟩

/-- C4, amended: the two assignments are process-local but not reverted: they
touch no other variable, and once step 5 has run (that is, whenever the check
subprocess was invoked) the script's own environment remains
`checkEnv env0` — both variables still set — through step 7 and until the
process terminates; when the run aborts before step 5 the environment is the
inherited one.  Code running after the script in the parent process observes
an unchanged environment only because `os.environ` mutations die with the
process, not because the script restores them. -/
theorem C4_env_assignments_scoped_amended (tool : BuildTool) (faults : Faults)
    (env0 : EnvMap) (fs0 : FS) :
    (∀ k : String, k ≠ "SQLX_OFFLINE" → k ≠ "SQLX_OFFLINE_DIR" →
      (run tool faults env0 fs0).env k = env0 k) ∧
    ((run tool faults env0 fs0).checkCall ≠ none →
      (run tool faults env0 fs0).env = checkEnv env0) ∧
    ((run tool faults env0 fs0).checkCall = none →
      (run tool faults env0 fs0).env = env0) := by
  refine ⟨?_, (run_calls tool faults env0 fs0).2.2.2,
    (run_calls tool faults env0 fs0).2.2.1⟩
  intro k h1 h2
  by_cases hc : (run tool faults env0 fs0).checkCall = none
  · rw [(run_calls tool faults env0 fs0).2.2.1 hc]
  · rw [(run_calls tool faults env0 fs0).2.2.2 hc]
    exact checkEnv_other env0 k h1 h2

/-- Witness for the amended C4: in the demonstration run an unrelated
variable is unchanged, and since the check subprocess ran, the final
environment is exactly the inherited one plus the two assignments. -/
theorem C4_env_assignments_scoped_amended_witness :
    demoRun.env "HOME" = emptyEnv "HOME" ∧
    demoRun.env = checkEnv emptyEnv :=
  ⟨(C4_env_assignments_scoped_amended demoTool noFaults emptyEnv emptyFS).1
      "HOME" (by decide) (by decide),
   (C4_env_assignments_scoped_amended demoTool noFaults emptyEnv emptyFS).2.1
      (by simp [show (run demoTool noFaults emptyEnv emptyFS).checkCall =
            some demoCheck from rfl])⟩

/-- C10: the clean subprocess of step 1 is invoked with exactly the
environment the script inherited — the two variables are assigned only
afterwards — and whenever the check subprocess of step 6 is invoked, its
environment is the inherited one with exactly those two assignments
applied. -/
theorem C10_clean_before_env_assignments (tool : BuildTool) (faults : Faults)
    (env0 : EnvMap) (fs0 : FS) :
    (run tool faults env0 fs0).cleanCall =
      some (env0, (tool.clean env0 fs0).2) ∧
    ∀ (e : EnvMap) (c : Int) (f6 : FS),
      (run tool faults env0 fs0).checkCall = some (e, c, f6) →
      e = checkEnv env0 :=
  ⟨(run_calls tool faults env0 fs0).1, (run_calls tool faults env0 fs0).2.1⟩

/-- Witness for C10: in the demonstration run, started from the empty
environment (in which neither variable is set), clean received exactly that
environment and check received it with the two assignments. -/
theorem C10_clean_before_env_assignments_witness :
    demoRun.cleanCall =
      some (emptyEnv, (demoTool.clean emptyEnv emptyFS).2) ∧
    demoCheck.1 = checkEnv emptyEnv ∧
    emptyEnv "SQLX_OFFLINE" = none ∧ emptyEnv "SQLX_OFFLINE_DIR" = none :=
  ⟨(C10_clean_before_env_assignments demoTool noFaults emptyEnv emptyFS).1,
   (C10_clean_before_env_assignments demoTool noFaults emptyEnv emptyFS).2
      demoCheck.1 demoCheck.2.1 demoCheck.2.2 rfl,
   rfl, rfl⟩

/-- A filesystem holding `target`, `target/sqlx` and a stale metadata file
`target/sqlx/stale.json`. -/
def cexFS5 : FS :=
  ⟨fun q => q == ["target"] || q == ["target", "sqlx"],
   fun q => if q == ["target", "sqlx", "stale.json"] then some "stale"
            else none⟩

/-- A fault setup whose only injected error is a permission error at the
`shutil.rmtree("target/sqlx", ignore_errors=True)` call of step 3. -/
def rmtreeBuildFault : Faults :=
  ⟨none, some OSErr.permissionDenied, none, none, none⟩

/-- C5, counterexample: a permission error raised during the removal of
`target/sqlx` in step 3 is NOT surfaced: `ignore_errors=True` swallows it,
the script silently continues through the rest of step 3 (step 3 is recorded
as completed), and the run eventually aborts at step 4 with a different
error (`FileExistsError`, because the directory was never removed) — the
permission error itself never propagates to the caller. -/
theorem C5_step3_error_swallowed_cex :
    (run idTool rmtreeBuildFault emptyEnv cexFS5).result =
      Except.error OSErr.fileExists ∧
    OSErr.fileExists ≠ OSErr.permissionDenied ∧
    3 ∈ (run idTool rmtreeBuildFault emptyEnv cexFS5).ranSteps ∧
    (run idTool rmtreeBuildFault emptyEnv cexFS5).failedStep = some 4 :=
  ⟨rfl, by decide, by decide, rfl⟩

/-- C5, amended: a filesystem error injected at step 2 (`os.makedirs`),
step 4 (`os.mkdir`) or step 7 (`shutil.copytree`) propagates to the caller
as the script's result; but the removals of step 3 never abort the run
(step 3 always completes once step 2 has), because
`shutil.rmtree(..., ignore_errors=True)` suppresses their errors —
a failed removal surfaces only indirectly, as an already-exists error at a
later step. -/
theorem C5_fs_errors_amended (tool : BuildTool) (faults : Faults)
    (env0 : EnvMap) (fs0 : FS) (e : OSErr) :
    (faults.atMakedirs = some e →
      (run tool faults env0 fs0).result = Except.error e ∧
      (run tool faults env0 fs0).failedStep = some 2) ∧
    (2 ∈ (run tool faults env0 fs0).ranSteps →
      3 ∈ (run tool faults env0 fs0).ranSteps) ∧
    (3 ∈ (run tool faults env0 fs0).ranSteps → faults.atMkdir = some e →
      (run tool faults env0 fs0).result = Except.error e) ∧
    (6 ∈ (run tool faults env0 fs0).ranSteps → faults.atCopytree = some e →
      (run tool faults env0 fs0).result = Except.error e) := by
  unfold run
  cases hm : makedirsEO faults.atMakedirs (tool.clean env0 fs0).1 TARGET_DIR with
  | error e1 =>
    dsimp only
    refine ⟨?_, ?_, ?_, ?_⟩
    · intro hf
      rw [hf] at hm
      have he : e = e1 := by simpa [makedirsEO] using hm
      subst he
      exact ⟨rfl, rfl⟩
    · intro h2
      exact absurd h2 (by decide)
    · intro h3
      exact absurd h3 (by decide)
    · intro h6
      exact absurd h6 (by decide)
  | ok fs2 =>
    dsimp only
    cases hk : mkdirE faults.atMkdir
        (rmtreeIgnore faults.atRmtreePrepare
          (rmtreeIgnore faults.atRmtreeBuild fs2 SQLX_BUILD_DIR)
          SQLX_PREPARE_DIR)
        SQLX_BUILD_DIR with
    | error e1 =>
      dsimp only
      refine ⟨?_, ?_, ?_, ?_⟩
      · intro hf
        rw [hf] at hm
        simp [makedirsEO] at hm
      · intro _
        decide
      · intro _ hf
        rw [hf] at hk
        have he : e = e1 := by simpa [mkdirE] using hk
        subst he
        rfl
      · intro h6
        exact absurd h6 (by decide)
    | ok fs4 =>
      dsimp only
      cases hc : copytreeE faults.atCopytree (tool.check (checkEnv env0) fs4).1
          SQLX_BUILD_DIR SQLX_PREPARE_DIR with
      | error e1 =>
        dsimp only
        refine ⟨?_, ?_, ?_, ?_⟩
        · intro hf
          rw [hf] at hm
          simp [makedirsEO] at hm
        · intro _
          decide
        · intro _ hf
          rw [hf] at hk
          simp [mkdirE] at hk
        · intro _ hf
          rw [hf] at hc
          have he : e = e1 := by simpa [copytreeE] using hc
          subst he
          rfl
      | ok fs7 =>
        dsimp only
        refine ⟨?_, ?_, ?_, ?_⟩
        · intro hf
          rw [hf] at hm
          simp [makedirsEO] at hm
        · intro _
          decide
        · intro _ hf
          rw [hf] at hk
          simp [mkdirE] at hk
        · intro _ hf
          rw [hf] at hc
          simp [copytreeE] at hc

/-- A fault setup whose only injected error is a permission error at the
`os.makedirs` call of step 2. -/
def makedirsFault : Faults := ⟨some OSErr.permissionDenied, none, none, none, none⟩

/-- A fault setup whose only injected error is an I/O error at the
`shutil.copytree` call of step 7. -/
def copytreeFault : Faults := ⟨none, none, none, none, some OSErr.ioError⟩

/-- Witness for the amended C5: errors injected at steps 2, 4 and 7 each
propagate as the script's result, and in a fault-free run step 3 completes
whenever step 2 did. -/
theorem C5_fs_errors_amended_witness :
    ((run idTool makedirsFault emptyEnv emptyFS).result =
        Except.error OSErr.permissionDenied ∧
      (run idTool makedirsFault emptyEnv emptyFS).failedStep = some 2) ∧
    3 ∈ demoRun.ranSteps ∧
    (run idTool mkdirFault emptyEnv emptyFS).result =
      Except.error OSErr.permissionDenied ∧
    (run demoTool copytreeFault emptyEnv emptyFS).result =
      Except.error OSErr.ioError :=
  ⟨(C5_fs_errors_amended idTool makedirsFault emptyEnv emptyFS
      OSErr.permissionDenied).1 rfl,
   (C5_fs_errors_amended demoTool noFaults emptyEnv emptyFS
      OSErr.ioError).2.1 (by decide),
   (C5_fs_errors_amended idTool mkdirFault emptyEnv emptyFS
      OSErr.permissionDenied).2.2.1 (by decide) rfl,
   (C5_fs_errors_amended demoTool copytreeFault emptyEnv emptyFS
      OSErr.ioError).2.2.2 (by decide) rfl⟩

theorem mkdirE_none_absent (fs : FS) (s : String)
    (h1 : fs.isDir (toPath s) = false) (h2 : fs.file (toPath s) = none) :
    mkdirE none fs s =
      if !(toPath s).dropLast.isEmpty && !fs.isDir (toPath s).dropLast then
        Except.error OSErr.fileNotFound
      else Except.ok ⟨fun q => q == toPath s || fs.isDir q, fs.file⟩ := by
  simp [mkdirE, h1, h2]

theorem build_append_ne_target (rest : Path) :
    (toPath SQLX_BUILD_DIR ++ rest == ["target"]) = false := by
  rw [beq_eq_false_iff_ne]
  intro h
  rw [toPath_build] at h
  simp at h

/-- C6: if step 3's removal left the `target/sqlx` subtree absent, then the
`os.mkdir` of step 4 — absent an injected OS error, which cannot be an
already-exists error — never fails with `FileExistsError`, and when it
succeeds the directory exists and is empty. -/
theorem C6_mkdir_fresh_no_eexist (fault : Option OSErr) (fs : FS)
    (hfault : fault ≠ some OSErr.fileExists)
    (habs : ∀ rest : Path,
      fs.isDir (toPath SQLX_BUILD_DIR ++ rest) = false ∧
      fs.file (toPath SQLX_BUILD_DIR ++ rest) = none) :
    mkdirE fault fs SQLX_BUILD_DIR ≠ Except.error OSErr.fileExists ∧
    ∀ fs' : FS, mkdirE fault fs SQLX_BUILD_DIR = Except.ok fs' →
      fs'.isDir (toPath SQLX_BUILD_DIR) = true ∧
      ∀ rest : Path, rest ≠ [] →
        fs'.isDir (toPath SQLX_BUILD_DIR ++ rest) = false ∧
        fs'.file (toPath SQLX_BUILD_DIR ++ rest) = none := by
  have h0 := habs []
  rw [List.append_nil] at h0
  cases fault with
  | some e =>
    constructor
    · intro h
      apply hfault
      have he : e = OSErr.fileExists := by simpa [mkdirE] using h
      rw [he]
    · intro fs' h
      simp [mkdirE] at h
  | none =>
    constructor
    · intro h
      rw [mkdirE_none_absent fs SQLX_BUILD_DIR h0.1 h0.2] at h
      split at h
      · simp at h
      · simp at h
    · intro fs' h
      rw [mkdirE_none_absent fs SQLX_BUILD_DIR h0.1 h0.2] at h
      split at h
      · simp at h
      · have hfs : fs' =
            ⟨fun q => q == toPath SQLX_BUILD_DIR || fs.isDir q, fs.file⟩ :=
          (Except.ok.inj h).symm
        subst hfs
        constructor
        · simp
        · intro rest hrest
          refine ⟨?_, (habs rest).2⟩
          show ((toPath SQLX_BUILD_DIR ++ rest == toPath SQLX_BUILD_DIR) ||
              fs.isDir (toPath SQLX_BUILD_DIR ++ rest)) = false
          rw [append_beq_self, (habs rest).1]
          simp [hrest]

/-- A filesystem holding only the directory `target`. -/
def fsTargetOnly : FS := ⟨fun q => q == ["target"], fun _ => none⟩

/-- The filesystem produced by step 4 from `fsTargetOnly`. -/
def fsAfterMkdir : FS :=
  match mkdirE none fsTargetOnly SQLX_BUILD_DIR with
  | Except.ok f => f
  | Except.error _ => emptyFS

/-- Witness for C6: from a filesystem holding only `target`, step 4 succeeds
and produces an existing, empty `target/sqlx`. -/
theorem C6_mkdir_fresh_no_eexist_witness :
    mkdirE none fsTargetOnly SQLX_BUILD_DIR = Except.ok fsAfterMkdir ∧
    fsAfterMkdir.isDir (toPath SQLX_BUILD_DIR) = true ∧
    fsAfterMkdir.isDir (toPath SQLX_BUILD_DIR ++ ["x"]) = false ∧
    fsAfterMkdir.file (toPath SQLX_BUILD_DIR ++ ["x"]) = none := by
  have h := C6_mkdir_fresh_no_eexist none fsTargetOnly (by simp)
    (fun rest => ⟨build_append_ne_target rest, rfl⟩)
  have hok : mkdirE none fsTargetOnly SQLX_BUILD_DIR =
      Except.ok fsAfterMkdir := rfl
  have h2 := h.2 fsAfterMkdir hok
  exact ⟨hok, h2.1, (h2.2 ["x"] (by simp)).1, (h2.2 ["x"] (by simp)).2⟩

/-- C7: the copy of step 7 fails loudly — it returns an error — whenever the
source directory `target/sqlx` does not exist or the destination `.sqlx`
already exists (as a directory or as a file). -/
theorem C7_copytree_fails_loudly (fs : FS)
    (h : fs.isDir (toPath SQLX_BUILD_DIR) = false ∨
         fs.isDir (toPath SQLX_PREPARE_DIR) = true ∨
         (fs.file (toPath SQLX_PREPARE_DIR)).isSome = true) :
    ∃ e : OSErr, copytreeE none fs SQLX_BUILD_DIR SQLX_PREPARE_DIR =
      Except.error e := by
  simp only [copytreeE]
  by_cases h1 : fs.isDir (toPath SQLX_BUILD_DIR) = false
  · rw [if_pos h1]
    exact ⟨_, rfl⟩
  · rw [if_neg h1]
    have h2 : (fs.isDir (toPath SQLX_PREPARE_DIR) ||
        (fs.file (toPath SQLX_PREPARE_DIR)).isSome) = true := by
      rcases h with ha | hb | hc
      · exact absurd ha h1
      · simp [hb]
      · simp [hc]
    simp only [h2, if_true]
    exact ⟨OSErr.fileExists, rfl⟩

/-- A filesystem in which both `target/sqlx` and `.sqlx` exist. -/
def fsBothDirs : FS :=
  ⟨fun q => q == ["target", "sqlx"] || q == [".sqlx"], fun _ => none⟩

/-- Witness for C7: the copy errors on an empty filesystem (missing source)
and errors when the destination `.sqlx` already exists. -/
theorem C7_copytree_fails_loudly_witness :
    (∃ e : OSErr, copytreeE none emptyFS SQLX_BUILD_DIR SQLX_PREPARE_DIR =
      Except.error e) ∧
    (∃ e : OSErr, copytreeE none fsBothDirs SQLX_BUILD_DIR SQLX_PREPARE_DIR =
      Except.error e) :=
  ⟨C7_copytree_fails_loudly emptyFS (Or.inl rfl),
   C7_copytree_fails_loudly fsBothDirs (Or.inr (Or.inl rfl))⟩

/-- C8: no file in `.sqlx` survives a run unless the build tool regenerated
it — after a successful run, `.sqlx` holds a file at `rest` only if the
post-check cache directory holds one at `rest` — and, when the build tool's
check writes cache contents that do not depend on the incoming filesystem
(determinism of the external tool), two successive successful runs leave the
`.sqlx` subtree in the same final state. -/
theorem C8_no_leftover_and_idempotent
    (tool : BuildTool) (faults : Faults) (env0 : EnvMap) (fs0 : FS)
    (fsF1 fsF2 : FS) (e1 : EnvMap) (c1 : Int) (fs6 : FS)
    (h1 : (run tool faults env0 fs0).result = Except.ok fsF1)
    (hc1 : (run tool faults env0 fs0).checkCall = some (e1, c1, fs6))
    (h2 : (run tool faults env0 fsF1).result = Except.ok fsF2)
    (hdetF : ∀ (e : EnvMap) (f g : FS) (rest : Path),
      ((tool.check e f).1).file (toPath SQLX_BUILD_DIR ++ rest) =
      ((tool.check e g).1).file (toPath SQLX_BUILD_DIR ++ rest))
    (hdetD : ∀ (e : EnvMap) (f g : FS) (rest : Path),
      ((tool.check e f).1).isDir (toPath SQLX_BUILD_DIR ++ rest) =
      ((tool.check e g).1).isDir (toPath SQLX_BUILD_DIR ++ rest)) :
    (∀ rest : Path, fs6.file (toPath SQLX_BUILD_DIR ++ rest) = none →
      fsF1.file (toPath SQLX_PREPARE_DIR ++ rest) = none) ∧
    (∀ rest : Path,
      fsF1.file (toPath SQLX_PREPARE_DIR ++ rest) =
        fsF2.file (toPath SQLX_PREPARE_DIR ++ rest) ∧
      fsF1.isDir (toPath SQLX_PREPARE_DIR ++ rest) =
        fsF2.isDir (toPath SQLX_PREPARE_DIR ++ rest)) := by
  obtain ⟨fs2a, fs4a, hma, hka, hca, hcalla⟩ :=
    run_ok_elim tool faults env0 fs0 fsF1 h1
  rw [hcalla] at hc1
  have hfs6 : fs6 = (tool.check (checkEnv env0) fs4a).1 := by
    have h' := Option.some.inj hc1
    have h2' := congrArg (fun t => t.2.2) h'
    simpa using h2'.symm
  subst hfs6
  obtain ⟨fs2b, fs4b, hmb, hkb, hcb, -⟩ :=
    run_ok_elim tool faults env0 fsF1 fsF2 h2
  obtain ⟨-, -, -, -, hcopy1⟩ :=
    copytreeE_ok_elim faults.atCopytree _ SQLX_BUILD_DIR SQLX_PREPARE_DIR
      fsF1 hca
  obtain ⟨-, -, -, -, hcopy2⟩ :=
    copytreeE_ok_elim faults.atCopytree _ SQLX_BUILD_DIR SQLX_PREPARE_DIR
      fsF2 hcb
  subst hcopy1
  subst hcopy2
  constructor
  · intro rest hnone
    rw [copyTree_file_under]
    exact hnone
  · intro rest
    constructor
    · rw [copyTree_file_under, copyTree_file_under]
      exact hdetF (checkEnv env0) fs4a fs4b rest
    · rw [copyTree_isDir_under, copyTree_isDir_under,
          hdetD (checkEnv env0) fs4a fs4b rest]

/-- A filesystem holding a stale prepared-metadata file `.sqlx/stale.json`
from a previous run. -/
def fsStale : FS :=
  ⟨fun q => q == [".sqlx"],
   fun q => if q == [".sqlx", "stale.json"] then some "old" else none⟩

/-- First demonstration run for C8, starting with a stale `.sqlx`. -/
def staleRun : Outcome := run demoTool noFaults emptyEnv fsStale

/-- The final filesystem of `staleRun`. -/
def staleFsF : FS :=
  match staleRun.result with
  | Except.ok f => f
  | Except.error _ => emptyFS

/-- What `staleRun` recorded for the `check` invocation. -/
def staleCheck : EnvMap × Int × FS :=
  match staleRun.checkCall with
  | some t => t
  | none => (emptyEnv, 0, emptyFS)

/-- Second demonstration run for C8, immediately after `staleRun`. -/
def staleRun2 : Outcome := run demoTool noFaults emptyEnv staleFsF

/-- The final filesystem of `staleRun2`. -/
def staleFsF2 : FS :=
  match staleRun2.result with
  | Except.ok f => f
  | Except.error _ => emptyFS

/-- Witness for C8: starting with a stale `.sqlx/stale.json`, the sentinel is
absent after a successful run (the deterministic tool only regenerates
`q1.json`), and a second run leaves the `.sqlx` subtree in the same state. -/
theorem C8_no_leftover_and_idempotent_witness :
    fsStale.file (toPath SQLX_PREPARE_DIR ++ ["stale.json"]) = some "old" ∧
    staleRun.result = Except.ok staleFsF ∧
    staleFsF.file (toPath SQLX_PREPARE_DIR ++ ["stale.json"]) = none ∧
    staleFsF.file (toPath SQLX_PREPARE_DIR ++ ["q1.json"]) =
      staleFsF2.file (toPath SQLX_PREPARE_DIR ++ ["q1.json"]) ∧
    staleFsF.isDir (toPath SQLX_PREPARE_DIR) =
      staleFsF2.isDir (toPath SQLX_PREPARE_DIR) := by
  have hdF : ∀ (e : EnvMap) (f g : FS) (rest : Path),
      ((demoTool.check e f).1).file (toPath SQLX_BUILD_DIR ++ rest) =
      ((demoTool.check e g).1).file (toPath SQLX_BUILD_DIR ++ rest) := by
    intro e f g rest
    simp [demoTool, underDir_append]
  have hdD : ∀ (e : EnvMap) (f g : FS) (rest : Path),
      ((demoTool.check e f).1).isDir (toPath SQLX_BUILD_DIR ++ rest) =
      ((demoTool.check e g).1).isDir (toPath SQLX_BUILD_DIR ++ rest) := by
    intro e f g rest
    simp [demoTool, underDir_append]
  have h := C8_no_leftover_and_idempotent demoTool noFaults emptyEnv fsStale
    staleFsF staleFsF2 staleCheck.1 staleCheck.2.1 staleCheck.2.2
    rfl rfl rfl hdF hdD
  refine ⟨rfl, rfl, h.1 ["stale.json"] rfl, (h.2 ["q1.json"]).1, ?_⟩
  simpa using (h.2 []).2

/-- A general frame lemma: the script's own filesystem operations never
change the contents of a path outside both `target/sqlx` and `.sqlx`; if the
two subprocesses also preserve it, the final contents equal the initial
ones. -/
theorem run_preserves_outside_file
    (tool : BuildTool) (faults : Faults) (env0 : EnvMap) (fs0 : FS)
    (fsF : FS) (p : Path)
    (hclean : ∀ (e : EnvMap) (f : FS), ((tool.clean e f).1).file p = f.file p)
    (hcheck : ∀ (e : EnvMap) (f : FS), ((tool.check e f).1).file p = f.file p)
    (hb : underDir (toPath SQLX_BUILD_DIR) p = false)
    (hp : underDir (toPath SQLX_PREPARE_DIR) p = false)
    (hok : (run tool faults env0 fs0).result = Except.ok fsF) :
    fsF.file p = fs0.file p := by
  obtain ⟨fs2, fs4, hm, hk, hc, -⟩ := run_ok_elim tool faults env0 fs0 fsF hok
  obtain ⟨-, -, -, -, hcopy⟩ :=
    copytreeE_ok_elim faults.atCopytree _ SQLX_BUILD_DIR SQLX_PREPARE_DIR
      fsF hc
  subst hcopy
  rw [copyTree_file_outside _ _ _ _ hp, hcheck, mkdirE_ok_file _ _ _ _ hk,
      rmtreeIgnore_file_outside _ _ _ _ hp,
      rmtreeIgnore_file_outside _ _ _ _ hb,
      makedirsEO_ok_file _ _ _ _ hm, hclean]

theorem target_not_under_prep (p : Path)
    (h : underDir (toPath TARGET_DIR) p = true) :
    underDir (toPath SQLX_PREPARE_DIR) p = false := by
  cases p with
  | nil => simp [toPath_target, underDir] at h
  | cons a t =>
    rw [toPath_target, underDir_single] at h
    have ha : "target" = a := by simpa using h
    subst ha
    rw [toPath_prep, underDir_single]
    decide

/-- A filesystem holding the directory `target` and an unrelated pre-existing
file `target/unrelated.txt`. -/
def cexFS9 : FS :=
  ⟨fun q => q == ["target"],
   fun q => if q == ["target", "unrelated.txt"] then some "keep" else none⟩

/-- A run with the `cargo clean`-like tool on `cexFS9`. -/
def cexRun9 : Outcome := run wipeCleanTool noFaults emptyEnv cexFS9

/-- The final filesystem of `cexRun9`. -/
def cexFsF9 : FS :=
  match cexRun9.result with
  | Except.ok f => f
  | Except.error _ => emptyFS

/-- C9, counterexample: the claim fails because step 1 runs the external
tool's clean subcommand, which wipes the top-level output directory (that is
what `cargo clean` does).  With a clean subprocess that removes the `target`
subtree, a pre-existing unrelated file `target/unrelated.txt` is gone after a
successful run. -/
theorem C9_unrelated_file_lost_cex :
    cexFS9.file ["target", "unrelated.txt"] = some "keep" ∧
    cexRun9.result = Except.ok cexFsF9 ∧
    cexFsF9.file ["target", "unrelated.txt"] = none :=
  ⟨rfl, rfl, rfl⟩

/-- C9, amended: the script's own filesystem operations never delete a file
under `target` that lies outside `target/sqlx`; such a pre-existing file
still exists after a successful run provided the two external subprocesses
preserve it — the unconditional claim fails only because the clean
subprocess of step 1 may itself delete files in the top-level directory. -/
theorem C9_script_preserves_unrelated_amended
    (tool : BuildTool) (faults : Faults) (env0 : EnvMap) (fs0 : FS)
    (fsF : FS) (p : Path) (v : String)
    (hclean : ∀ (e : EnvMap) (f : FS), ((tool.clean e f).1).file p = f.file p)
    (hcheck : ∀ (e : EnvMap) (f : FS), ((tool.check e f).1).file p = f.file p)
    (hin : underDir (toPath TARGET_DIR) p = true)
    (hout : underDir (toPath SQLX_BUILD_DIR) p = false)
    (hok : (run tool faults env0 fs0).result = Except.ok fsF)
    (hv : fs0.file p = some v) :
    fsF.file p = some v := by
  rw [run_preserves_outside_file tool faults env0 fs0 fsF p hclean hcheck hout
      (target_not_under_prep p hin) hok]
  exact hv

/-- Demonstration run for the amended C9: the default tool (whose
subcommands do not touch `target/unrelated.txt`) on a filesystem holding
that file. -/
def w9Run : Outcome := run demoTool noFaults emptyEnv cexFS9

/-- The final filesystem of `w9Run`. -/
def w9FsF : FS :=
  match w9Run.result with
  | Except.ok f => f
  | Except.error _ => emptyFS

/-- Witness for the amended C9: with subprocesses that preserve the file, a
pre-existing `target/unrelated.txt` survives a successful run. -/
theorem C9_script_preserves_unrelated_amended_witness :
    w9Run.result = Except.ok w9FsF ∧
    cexFS9.file ["target", "unrelated.txt"] = some "keep" ∧
    w9FsF.file ["target", "unrelated.txt"] = some "keep" := by
  refine ⟨rfl, rfl, ?_⟩
  exact C9_script_preserves_unrelated_amended demoTool noFaults emptyEnv
    cexFS9 w9FsF ["target", "unrelated.txt"] "keep"
    (fun e f => rfl)
    (fun e f => by
      simp [demoTool,
        show underDir (toPath SQLX_BUILD_DIR) ["target", "unrelated.txt"] =
          false from by decide])
    (by decide) (by decide) rfl rfl

end SqlxPrepare
